import Mathlib

/-!
Verification of the Web-Agent repository's decision-execution-dedup loop.

The development shallowly embeds the Python sources:
  * `src/state_detector.py`  — `StateDetector` (perceptual-hash dedup);
  * `src/executor.py`        — `WebExecutor` ([N]-selector resolution and the
                               `execute_action` retry boundary);
  * `src/planner.py`         — `LLMPlanner.decide_next_action` (oracle-response
                               normalisation);
  * `src/agent_b.py`         — `WebAgent.execute_task` (the task loop);
  * `src/storage.py`         — `DatasetStorage` (metadata persistence).

External collaborators (the Playwright page, the LLM oracle, the filesystem)
are modelled as explicit environments: functions supplied as parameters whose
results drive the embedded control flow exactly as the library calls drive the
Python control flow.
-/

namespace WebAgentSpec

/-! ## Basic data: screenshot bytes and perceptual fingerprints

A screenshot is its byte string.  An `imagehash.ImageHash` is a boolean array;
`h1 - h2` in Python is the number of positions where the two arrays differ
(Hamming distance).  `imagehash.phash` itself is an image-processing function
outside the core; it enters the model as an explicit parameter
`phash : Bytes → FP`, a pure function of the screenshot bytes (which it is:
the hash is computed deterministically from the decoded image).
-/

/-- Screenshot bytes (`bytes` in Python). -/
abbrev Bytes := List Nat

/-- A perceptual fingerprint: the bit array underlying an `imagehash.ImageHash`. -/
abbrev FP := List Bool

/-- Hamming distance between two fingerprints, the meaning of `h1 - h2` on
`imagehash.ImageHash` values.  (Hashes produced by one `phash` configuration
all have the same length; the length-difference summand only makes the
function total and symmetric on unequal lengths.) -/
def hashDist (a b : FP) : Nat :=
  (List.zipWith (fun x y => x != y) a b).count true + (List.length a - List.length b)
    + (List.length b - List.length a)

theorem hashDist_self (a : FP) : hashDist a a = 0 := by
  unfold hashDist
  simp only [Nat.sub_self, Nat.add_zero]
  induction a with
  | nil => rfl
  | cons x xs ih =>
    simp only [List.zipWith, List.count_cons, ih]
    simp

theorem hashDist_comm (a b : FP) : hashDist a b = hashDist b a := by
  unfold hashDist
  have h : List.zipWith (fun x y => x != y) a b
      = List.zipWith (fun x y => x != y) b a := by
    induction a generalizing b with
    | nil => cases b <;> rfl
    | cons x xs ih =>
      cases b with
      | nil => rfl
      | cons y ys =>
        simp only [List.zipWith, ih]
        congr 1
        cases x <;> cases y <;> rfl
  rw [h]
  omega

/-! ## `src/state_detector.py` — `StateDetector` -/

/-- State of `StateDetector`: the similarity threshold (a Python `int`,
default 5) and the set of retained fingerprints.  Python's `set` is modelled
as a list together with membership-checking insertion (`set.add` is a no-op
on an already-present hash); iteration order is irrelevant because
`is_new_state` only asks whether *some* member is within the threshold. -/
structure StateDetector where
  similarity_threshold : Int
  seen_states : List FP

/-- Python `set.add`: insert unless already present. -/
def setAdd (h : FP) (s : List FP) : List FP :=
  if h ∈ s then s else h :: s

/-- `StateDetector.__init__(similarity_threshold=5)`. -/
def StateDetector.init (similarity_threshold : Int := 5) : StateDetector :=
  { similarity_threshold := similarity_threshold, seen_states := [] }

/-- `StateDetector.is_new_state(screenshot_bytes, force_save=False)`,
lines 15-32 of `src/state_detector.py`.  Returns the boolean result together
with the updated detector state.  `phash` is the (pure) hash of the screenshot
bytes. -/
def StateDetector.is_new_state (phash : Bytes → FP) (d : StateDetector)
    (screenshot_bytes : Bytes) (force_save : Bool := false) :
    Bool × StateDetector :=
  if force_save then
    (true, d)
  else
    let current_hash := phash screenshot_bytes
    if d.seen_states.any
        (fun seen_hash => (hashDist current_hash seen_hash : Int) ≤ d.similarity_threshold) then
      (false, d)
    else
      (true, { d with seen_states := setAdd current_hash d.seen_states })

/-- `StateDetector.reset()`, lines 34-36: clear the retained fingerprints. -/
def StateDetector.reset (d : StateDetector) : StateDetector :=
  { d with seen_states := [] }

/-- The invariant claimed for the fingerprint set: any two distinct retained
fingerprints are strictly further apart than the threshold. -/
def StateDetector.separated (d : StateDetector) : Prop :=
  ∀ a ∈ d.seen_states, ∀ b ∈ d.seen_states,
    a ≠ b → d.similarity_threshold < (hashDist a b : Int)

/-- Unfolding equation for an unforced `is_new_state` call. -/
theorem is_new_state_false_eq (phash : Bytes → FP) (d : StateDetector) (ss : Bytes) :
    d.is_new_state phash ss false =
      if d.seen_states.any
          (fun f => decide ((hashDist (phash ss) f : Int) ≤ d.similarity_threshold)) = true
        then (false, d)
        else (true, { d with seen_states := setAdd (phash ss) d.seen_states }) := rfl

/-- An unforced call whose fingerprint is already retained reports a
duplicate (for a nonnegative threshold). -/
theorem is_new_state_mem_false (phash : Bytes → FP) (d : StateDetector) (ss : Bytes)
    (hmem : phash ss ∈ d.seen_states) (hthr : 0 ≤ d.similarity_threshold) :
    (d.is_new_state phash ss false).1 = false := by
  rw [is_new_state_false_eq]
  have hany : d.seen_states.any
      (fun f => decide ((hashDist (phash ss) f : Int) ≤ d.similarity_threshold)) = true := by
    rw [List.any_eq_true]
    refine ⟨phash ss, hmem, ?_⟩
    simp only [hashDist_self, decide_eq_true_eq]
    omega
  rw [if_pos hany]

theorem mem_setAdd (h : FP) (s : List FP) : h ∈ setAdd h s := by
  unfold setAdd
  by_cases hm : h ∈ s <;> simp [hm]

theorem setAdd_subset (h : FP) (s : List FP) : ∀ x ∈ setAdd h s, x = h ∨ x ∈ s := by
  intro x hx
  unfold setAdd at hx
  by_cases hm : h ∈ s
  · simp [hm] at hx
    exact Or.inr hx
  · simp [hm] at hx
    rcases hx with hx | hx
    · exact Or.inl hx
    · exact Or.inr hx

/-! ### Claims C5-C8 -/

/-- C5: for every screenshot and every tracker state, `is_new_state` with
`force_save=True` returns `True` and leaves the stored fingerprint set
unchanged; consequently a later screenshot whose fingerprint is within the
threshold of the forced one (and beyond the threshold of everything actually
retained) is still classified novel. -/
theorem C5_force_save_no_retention (phash : Bytes → FP) (d : StateDetector)
    (ss later : Bytes) :
    d.is_new_state phash ss true = (true, d) ∧
    ((hashDist (phash later) (phash ss) : Int) ≤ d.similarity_threshold →
      (∀ f ∈ d.seen_states, d.similarity_threshold < (hashDist (phash later) f : Int)) →
      (d.is_new_state phash later false).1 = true) := by
  constructor
  · rfl
  · intro _ hfar
    unfold StateDetector.is_new_state
    simp only [if_neg (by simp : ¬ (false : Bool) = true)]
    have hany : d.seen_states.any
        (fun f => decide ((hashDist (phash later) f : Int) ≤ d.similarity_threshold)) = false := by
      rw [List.any_eq_false]
      intro f hf
      simp only [decide_eq_true_eq]
      exact not_le.mpr (hfar f hf)
    simp [hany]

/-- Witness for C5 at a concrete input: empty tracker, constant hash. -/
theorem C5_witness :
    StateDetector.is_new_state (fun _ => []) ⟨5, []⟩ [0] true = (true, ⟨5, []⟩) ∧
    (StateDetector.is_new_state (fun _ => []) ⟨5, []⟩ [1] false).1 = true := by
  have h := C5_force_save_no_retention (fun _ => []) ⟨5, []⟩ [0] [1]
  exact ⟨h.1, h.2 (by decide) (by intro f hf; cases hf)⟩

/-- C6: the separation invariant (any two distinct retained fingerprints are
further apart than the threshold) holds for the initial empty set and is
preserved by every `is_new_state` call (forced or not) and by `reset`. -/
theorem C6_separated_invariant (t : Int) (phash : Bytes → FP) (d : StateDetector)
    (ss : Bytes) (force : Bool) (hd : d.separated) :
    (StateDetector.init t).separated ∧
    ((d.is_new_state phash ss force).2).separated ∧
    (d.reset).separated := by
  refine ⟨?_, ?_, ?_⟩
  · intro a ha
    cases ha
  · cases force with
    | true => exact hd
    | false =>
      rw [is_new_state_false_eq]
      set h := phash ss with hh
      by_cases hany : d.seen_states.any
          (fun f => decide ((hashDist h f : Int) ≤ d.similarity_threshold)) = true
      · rw [if_pos hany]
        exact hd
      · rw [if_neg hany]
        have hfar : ∀ f ∈ d.seen_states, d.similarity_threshold < (hashDist h f : Int) := by
          intro f hfm
          have := List.any_eq_false.mp (Bool.eq_false_iff.mpr hany) f hfm
          simp only [decide_eq_true_eq] at this
          omega
        intro a ha b hb hab
        rcases setAdd_subset h d.seen_states a ha with rfl | ha' <;>
          rcases setAdd_subset h d.seen_states b hb with rfl | hb'
        · exact absurd rfl hab
        · exact hfar b hb'
        · rw [hashDist_comm]
          exact hfar a ha'
        · exact hd a ha' b hb' hab
  · intro a ha
    cases ha

/-- Witness for C6 at a concrete input: separation established for the empty
tracker and preserved by one unforced call. -/
theorem C6_witness :
    (StateDetector.init 5).separated ∧
    ((StateDetector.is_new_state (fun _ => [true]) ⟨5, []⟩ [3] false).2).separated := by
  have hd : (⟨5, []⟩ : StateDetector).separated := by
    intro a ha
    cases ha
  have h := C6_separated_invariant 5 (fun _ => [true]) ⟨5, []⟩ [3] false hd
  exact ⟨h.1, h.2.1⟩

/-- C7 counterexample: a tracker that already retains the fingerprint of the
screenshot refutes "the first call returns true" — both calls return false,
so the claimed (true, false) pattern does not hold for every tracker state. -/
theorem C7_counterexample :
    (StateDetector.is_new_state (fun _ => [true]) ⟨5, [[true]]⟩ [7] false).1 = false := by
  decide

/-- C7 as amended: the second of two identical unforced calls always returns
false (when the threshold is nonnegative, as the default 5 is), and the first
returns true exactly in the case the claim presumes — when the screenshot's
fingerprint is beyond the threshold from every retained fingerprint. -/
theorem C7_idempotence (phash : Bytes → FP) (d : StateDetector) (ss : Bytes)
    (hthr : 0 ≤ d.similarity_threshold) :
    (((d.is_new_state phash ss false).2).is_new_state phash ss false).1 = false ∧
    ((∀ f ∈ d.seen_states, d.similarity_threshold < (hashDist (phash ss) f : Int)) →
      (d.is_new_state phash ss false).1 = true) := by
  constructor
  · by_cases hany : d.seen_states.any
        (fun f => decide ((hashDist (phash ss) f : Int) ≤ d.similarity_threshold)) = true
    · have hfirst : d.is_new_state phash ss false = (false, d) := by
        rw [is_new_state_false_eq, if_pos hany]
      rw [hfirst]
      show (d.is_new_state phash ss false).1 = false
      rw [is_new_state_false_eq, if_pos hany]
    · have hfirst : d.is_new_state phash ss false
          = (true, { d with seen_states := setAdd (phash ss) d.seen_states }) := by
        rw [is_new_state_false_eq, if_neg hany]
      rw [hfirst]
      exact is_new_state_mem_false phash
        { d with seen_states := setAdd (phash ss) d.seen_states } ss
        (mem_setAdd (phash ss) d.seen_states) hthr
  · intro hfar
    unfold StateDetector.is_new_state
    have hany : d.seen_states.any
        (fun f => decide ((hashDist (phash ss) f : Int) ≤ d.similarity_threshold)) = false := by
      rw [List.any_eq_false]
      intro f hf
      simp only [decide_eq_true_eq]
      exact not_le.mpr (hfar f hf)
    simp [hany]

/-- Witness for C7 at a concrete input: empty tracker, so the pair of calls
returns true then false. -/
theorem C7_witness :
    ((StateDetector.is_new_state (fun _ => [false, true]) ⟨5, []⟩ [2] false).2.is_new_state
      (fun _ => [false, true]) [2] false).1 = false ∧
    (StateDetector.is_new_state (fun _ => [false, true]) ⟨5, []⟩ [2] false).1 = true := by
  have h := C7_idempotence (fun _ => [false, true]) ⟨5, []⟩ [2] (by decide)
  exact ⟨h.1, h.2 (by intro f hf; cases hf)⟩

/-- C8: a screenshot at distance exactly the threshold from some retained
fingerprint is classified duplicate with the set unchanged; a screenshot at
distance at least threshold + 1 from every retained fingerprint is classified
novel and its fingerprint is inserted. -/
theorem C8_threshold_boundary (phash : Bytes → FP) (d : StateDetector)
    (ss1 ss2 : Bytes) :
    ((∃ f ∈ d.seen_states, (hashDist (phash ss1) f : Int) = d.similarity_threshold) →
      d.is_new_state phash ss1 false = (false, d)) ∧
    ((∀ f ∈ d.seen_states, d.similarity_threshold + 1 ≤ (hashDist (phash ss2) f : Int)) →
      d.is_new_state phash ss2 false
          = (true, { d with seen_states := setAdd (phash ss2) d.seen_states }) ∧
        phash ss2 ∈ (d.is_new_state phash ss2 false).2.seen_states) := by
  constructor
  · rintro ⟨f, hf, hdist⟩
    unfold StateDetector.is_new_state
    have hany : d.seen_states.any
        (fun g => decide ((hashDist (phash ss1) g : Int) ≤ d.similarity_threshold)) = true := by
      rw [List.any_eq_true]
      exact ⟨f, hf, by simp [hdist]⟩
    simp [hany]
  · intro hfar
    have hany : d.seen_states.any
        (fun g => decide ((hashDist (phash ss2) g : Int) ≤ d.similarity_threshold)) = false := by
      rw [List.any_eq_false]
      intro f hf
      simp only [decide_eq_true_eq]
      have := hfar f hf
      omega
    have heq : d.is_new_state phash ss2 false
        = (true, { d with seen_states := setAdd (phash ss2) d.seen_states }) := by
      unfold StateDetector.is_new_state
      simp [hany]
    exact ⟨heq, by rw [heq]; exact mem_setAdd _ _⟩

/-- Witness for C8 at a concrete input: threshold 5, one retained fingerprint
at distance exactly 5 from the first screenshot's hash and distance 6 from the
second screenshot's hash. -/
theorem C8_witness :
    StateDetector.is_new_state
        (fun b => if b = [1] then [true, true, true, true, true, false]
          else [true, true, true, true, true, true])
        ⟨5, [[false, false, false, false, false, false]]⟩ [1] false
      = (false, ⟨5, [[false, false, false, false, false, false]]⟩) ∧
    StateDetector.is_new_state
        (fun b => if b = [1] then [true, true, true, true, true, false]
          else [true, true, true, true, true, true])
        ⟨5, [[false, false, false, false, false, false]]⟩ [2] false
      = (true, ⟨5, setAdd [true, true, true, true, true, true]
          [[false, false, false, false, false, false]]⟩) := by
  have h := C8_threshold_boundary
    (fun b => if b = [1] then [true, true, true, true, true, false]
      else [true, true, true, true, true, true])
    ⟨5, [[false, false, false, false, false, false]]⟩ [1] [2]
  refine ⟨h.1 ?_, (h.2 ?_).1⟩
  · exact ⟨[false, false, false, false, false, false], by simp, by decide⟩
  · intro f hf
    simp at hf
    subst hf
    decide

/-! ## Python value and error model

The oracle's output is JSON (`json.loads`), and action dictionaries carry
heterogeneous values, so a small JSON value type stands in for Python
objects where needed.  Python exceptions that the embedded code can raise
are a small closed set. -/

/-- A JSON value as produced by `json.loads` (numbers restricted to the
integers actually appearing in this protocol's fields). -/
inductive JVal where
  | null
  | bool (b : Bool)
  | num (n : Int)
  | str (s : String)
  | arr (xs : List JVal)
  | obj (kvs : List (String × JVal))

/-- Python exception classes the embedded code can raise. -/
inductive PyErr where
  | typeError (msg : String)
  | valueError (msg : String)
  | attributeError (msg : String)
  | timeoutError (msg : String)
deriving DecidableEq

/-- `str(e)` as used when an exception is stuffed into an error dict. -/
def PyErr.text : PyErr → String
  | .typeError m => m
  | .valueError m => m
  | .attributeError m => m
  | .timeoutError m => m

/-- Decimal digit run, the core of Python `int(str)`. -/
def parseDigits (cs : List Char) : Option Nat :=
  if cs.isEmpty then none
  else
    cs.foldl
      (fun acc c =>
        match acc with
        | none => none
        | some n => if c.isDigit then some (n * 10 + (c.toNat - 48)) else none)
      (some 0)

/-- Strip surrounding whitespace (`str.strip`-like, as `int(str)` does). -/
def trimChars (cs : List Char) : List Char :=
  ((cs.dropWhile Char.isWhitespace).reverse.dropWhile Char.isWhitespace).reverse

/-- Python `int(s)`: optional surrounding whitespace, optional sign, decimal
digits; anything else raises ValueError (modelled as `none`).  (Python also
accepts underscores between digits; no selector in this system contains
them.) -/
def pyIntChars? (cs0 : List Char) : Option Int :=
  match trimChars cs0 with
  | '-' :: rest => (parseDigits rest).map (fun n => -(n : Int))
  | '+' :: rest => (parseDigits rest).map (fun n => (n : Int))
  | cs => (parseDigits cs).map (fun n => (n : Int))

/-- `int(s)` on a string. -/
def pyInt? (s : String) : Option Int :=
  pyIntChars? s.data

/-- `s.startswith(p)` (string comparisons are done on the character lists
so that everything evaluates inside the kernel). -/
def pyStartsWith (s p : String) : Bool :=
  p.data.isPrefixOf s.data

/-- `s.endswith(p)`. -/
def pyEndsWith (s p : String) : Bool :=
  p.data.reverse.isPrefixOf s.data.reverse

/-- `selector[1:-1]`: the characters strictly between the first and last. -/
def innerChars (s : String) : List Char :=
  (s.data.drop 1).dropLast

/-- Python list indexing `l[i]`: a negative index counts from the end;
out of range raises IndexError (modelled as `none`). -/
def pyIndex {α : Type} (l : List α) (i : Int) : Option α :=
  let j : Int := if i < 0 then (l.length : Int) + i else i
  if j < 0 then none else l[j.toNat]?

/-- Rendering of an optional string inside an f-string (`None` when the key
was absent). -/
def pyStrOfOpt : Option String → String
  | none => "None"
  | some s => s

/-- Python truthiness of `action.get('selector')`: absent key or empty
string are falsy. -/
def truthyStr : Option String → Bool
  | none => false
  | some s => !s.data.isEmpty

/-! ## `src/executor.py` — `WebExecutor`

The Playwright page is the excluded page-control surface; it enters the
model as a `Page` environment saying which page calls succeed.  A page call
that fails raises (bounded timeout expiring, unparsable selector, …), which
the embedded handlers surface as `Except.error`. -/

/-- One entry of `extract_dom_context`'s cached element table
(`self.last_elements`), the JS-built record of lines 263-269. -/
structure Element where
  index : Nat
  tag : String
  text : String
  selector : String
  ty : String
deriving DecidableEq

/-- An action dictionary as built by the planner (`src/planner.py` lines
133-142) and consumed by `WebExecutor.execute_action`.  Absent keys are
`none` / defaults.  `is_search_box_mark` models the `'_is_search_box'` key
written into the dict by `_type` (absent means `False`, matching
`action.get("_is_search_box", False)`). -/
structure Action where
  action : Option String := none
  selector : Option String := none
  text : JVal := JVal.str ""
  url : Option String := none
  press_enter : Bool := false
  capture : Option String := none
  thinking : JVal := JVal.str ""
  memory : JVal := JVal.str ""
  next_goal : JVal := JVal.str ""
  step_number : Nat := 0
  is_search_box_mark : Bool := false

/-- The page-control surface: which Playwright calls succeed on which
selectors, and the current URL.  A `false` entry means the corresponding
call raises (timeout, unparsable selector, navigation failure, …). -/
structure Page where
  url : String
  visible : String → Bool
  clickable : String → Bool
  force_clickable : String → Bool
  fillable : String → Bool
  search_attr : String → Bool
  pressable : String → Bool
  goto_ok : String → Bool
  found : String → Bool
  scroll_ok : String → Bool

namespace WebExecutor

/-- The `[N]`-selector conversion block shared by `_click` (lines 95-104)
and `_type` (lines 123-129): if the selector looks like `[N]`, parse `N`,
check `N <= len(last_elements)`, and replace the selector by
`last_elements[N - 1]['selector']`; any ValueError / IndexError / KeyError
is swallowed and the original selector kept.  (`hasattr(self,
'last_elements')` is always true: `__init__` sets the attribute.) -/
def resolve_selector_str (last_elements : List Element) (s : String) : String :=
  if pyStartsWith s "[" && pyEndsWith s "]" then
    match pyIntChars? (innerChars s) with
    | none => s
    | some index =>
      if index ≤ (last_elements.length : Int) then
        match pyIndex last_elements (index - 1) with
        | some e => e.selector
        | none => s
      else s
  else s

/-- A `None` selector passes the `if selector and ...` guard unchanged; a
string selector goes through the conversion block. -/
def resolve_selector (last_elements : List Element) (selector : Option String) :
    Option String :=
  match selector with
  | none => none
  | some s => some (resolve_selector_str last_elements s)

/-- `WebExecutor._click` (lines 90-115): resolve the selector, wait for
visibility, try a normal click and fall back to a forced click.  The
returned action is the (unmutated) dict. -/
def click_handler (page : Page) (last_elements : List Element) (a : Action) :
    Except PyErr Action :=
  match resolve_selector last_elements a.selector with
  | none => .error (.typeError "selector: expected string, got NoneType")
  | some s =>
    if page.visible s then
      if page.clickable s then .ok a
      else if page.force_clickable s then .ok a
      else .error (.timeoutError s)
    else .error (.timeoutError s)

/-- `WebExecutor._type` (lines 117-167): resolve the selector, wait for
visibility, evaluate the search-box heuristic, record it in the action dict
(`'_is_search_box'`), fill, and press Enter when a search box was detected
or `press_enter` was requested. -/
def type_handler (page : Page) (last_elements : List Element) (a : Action) :
    Except PyErr Action :=
  match resolve_selector last_elements a.selector with
  | none => .error (.typeError "selector: expected string, got NoneType")
  | some s =>
    if page.visible s then
      let is_search_box := page.search_attr s
      let a2 := { a with is_search_box_mark := is_search_box }
      if page.fillable s then
        if is_search_box || a.press_enter then
          if page.pressable s then .ok a2 else .error (.timeoutError s)
        else .ok a2
      else .error (.timeoutError s)
    else .error (.timeoutError s)

/-- `WebExecutor._navigate` (lines 169-173). -/
def navigate_handler (page : Page) (a : Action) : Except PyErr Action :=
  match a.url with
  | none => .error (.typeError "url: expected string, got NoneType")
  | some u => if page.goto_ok u then .ok a else .error (.timeoutError u)

/-- `WebExecutor._wait` (lines 175-180): wait for the element if a selector
is (truthily) present, otherwise sleep. -/
def wait_handler (page : Page) (a : Action) : Except PyErr Action :=
  if truthyStr a.selector then
    match a.selector with
    | some s => if page.found s then .ok a else .error (.timeoutError s)
    | none => .ok a
  else .ok a

/-- `WebExecutor._scroll` (lines 182-191): scroll a named element into view,
or wheel the viewport (which cannot fail) when no selector is given. -/
def scroll_handler (page : Page) (a : Action) : Except PyErr Action :=
  if truthyStr a.selector then
    match a.selector with
    | some s => if page.scroll_ok s then .ok a else .error (.timeoutError s)
    | none => .ok a
  else .ok a

/-- Outcome of the dispatch inside `execute_action`'s try block. -/
inductive HandlerOut where
  | handled (a2 : Action)
  | unknown
  | raised (e : PyErr)

/-- The `if/elif` dispatch of `execute_action` (lines 64-76). -/
def route (page : Page) (last_elements : List Element) (a : Action) : HandlerOut :=
  let toOut : Except PyErr Action → HandlerOut := fun r =>
    match r with
    | .ok a2 => .handled a2
    | .error e => .raised e
  match a.action with
  | some "click" => toOut (click_handler page last_elements a)
  | some "type" => toOut (type_handler page last_elements a)
  | some "navigate" => toOut (navigate_handler page a)
  | some "wait" => toOut (wait_handler page a)
  | some "scroll" => toOut (scroll_handler page a)
  | _ => .unknown

/-- The dictionary `execute_action` hands back to the orchestrator. -/
inductive ExecResult where
  | ok (url : String) (is_search_box : Bool)
  | err (error : String)
deriving DecidableEq

/-- `result.get("success")`. -/
def ExecResult.success : ExecResult → Bool
  | .ok _ _ => true
  | .err _ => false

/-- The `for attempt in range(1)` body of `execute_action` (lines 62-88),
faithful to the source: on an exception, `attempt == 1` is checked (the
`# Last attempt` branch) and otherwise the loop moves to the next attempt;
when the attempt list is exhausted the function falls off the end, i.e.
returns Python `None` (modelled `none`). -/
def execute_attempts (page : Page) (last_elements : List Element) (a : Action) :
    List Nat → Option ExecResult
  | [] => none
  | attempt :: rest =>
    match route page last_elements a with
    | .unknown => some (.err ("Unknown action: " ++ pyStrOfOpt a.action))
    | .handled a2 => some (.ok page.url a2.is_search_box_mark)
    | .raised e =>
      if attempt == 1 then some (.err e.text)
      else execute_attempts page last_elements a rest

/-- `WebExecutor.execute_action` (lines 57-88): the attempt loop runs over
`range(1)`, i.e. the single attempt `0`. -/
def execute_action (page : Page) (last_elements : List Element) (a : Action) :
    Option ExecResult :=
  execute_attempts page last_elements a (List.range 1)

end WebExecutor

/-! ### Concrete fixtures for the executor claims -/

/-- A page with exactly two interactable elements, `#a` and `#b`; any other
selector makes the page calls raise (element never becomes visible, or the
selector — such as the unresolved literal `[3]` — cannot be parsed). -/
def pageAB : Page :=
  { url := "https://example.com/ab"
    visible := fun s => s == "#a" || s == "#b"
    clickable := fun s => s == "#a" || s == "#b"
    force_clickable := fun s => s == "#a" || s == "#b"
    fillable := fun s => s == "#a" || s == "#b"
    search_attr := fun _ => false
    pressable := fun s => s == "#a" || s == "#b"
    goto_ok := fun _ => true
    found := fun s => s == "#a" || s == "#b"
    scroll_ok := fun s => s == "#a" || s == "#b" }

/-- A cached element table of two extracted elements, as
`extract_dom_context` stores it in `self.last_elements`. -/
def abElems : List Element :=
  [ { index := 1, tag := "button", text := "A", selector := "#a", ty := "button" },
    { index := 2, tag := "a", text := "B", selector := "#b", ty := "a" } ]

/-! ### Claims C1, C4, C10 -/

/-- C1 (code bug): `execute_action` is supposed to answer
`{success: True, url, is_search_box}` on success and
`{success: False, error}` on failure, and it does for the success and
unknown-action paths — but when an action handler raises, the
`for attempt in range(1)` loop never reaches its `attempt == 1`
"last attempt" branch, falls through, and the function returns Python
`None` to the orchestrator. -/
theorem C1_execute_action_shapes :
    WebExecutor.execute_action pageAB [] { action := some "click", selector := some "#a" }
        = some (.ok "https://example.com/ab" false) ∧
    WebExecutor.execute_action pageAB [] { action := some "frobnicate" }
        = some (.err "Unknown action: frobnicate") ∧
    WebExecutor.execute_action pageAB [] { action := some "click", selector := some "#missing" }
        = none := by
  refine ⟨rfl, rfl, rfl⟩

/-- C4: an in-range `[i]` selector (1 ≤ i ≤ k) resolves to the selector
stored for the i-th extracted element; an out-of-range `[k+1]` fails the
`index <= len(last_elements)` bound and is passed through unresolved — no
out-of-bounds access happens — but the attempted action then fails at the
page and, through the C1 bug, `execute_action` reports the failure as
Python `None` instead of the claimed `{success: False, error}` dict. -/
theorem C4_index_resolution :
    (∀ (elems : List Element) (s : String) (i : Nat) (h : i < elems.length),
        pyStartsWith s "[" = true → pyEndsWith s "]" = true →
        pyIntChars? (innerChars s) = some ((i : Int) + 1) →
        WebExecutor.resolve_selector elems (some s)
          = some ((elems.get ⟨i, h⟩).selector)) ∧
    WebExecutor.resolve_selector abElems (some "[3]") = some "[3]" ∧
    WebExecutor.execute_action pageAB abElems
        { action := some "click", selector := some "[3]" } = none := by
  refine ⟨?_, rfl, rfl⟩
  intro elems s i h hs1 hs2 hint
  show some (WebExecutor.resolve_selector_str elems s) = _
  unfold WebExecutor.resolve_selector_str
  rw [hs1, hs2]
  simp only [Bool.and_self, if_pos rfl, hint]
  have hle : ((i : Int) + 1) ≤ (elems.length : Int) := by
    omega
  rw [if_pos hle]
  have hidx : pyIndex elems ((i : Int) + 1 - 1) = some (elems.get ⟨i, h⟩) := by
    unfold pyIndex
    have h1 : ((i : Int) + 1 - 1) = (i : Int) := by ring
    rw [h1]
    have h2 : ¬ ((i : Int) < 0) := by omega
    simp only [if_neg h2, Int.toNat_natCast]
    rw [List.getElem?_eq_getElem h]
    simp [List.get_eq_getElem]
  rw [hidx]
  simp

/-- Witness for C4's universal part at a concrete input: `[2]` on a
two-element table resolves to the second element's selector. -/
theorem C4_witness :
    WebExecutor.resolve_selector abElems (some "[2]") = some "#b" := by
  have h := C4_index_resolution.1 abElems "[2]" 1 (by decide) (by decide) (by decide)
    (by decide)
  exact h

/-- C10: with a non-empty cached table, selector `[0]` is not rejected —
`0 <= len(last_elements)` passes — and `last_elements[-1]` resolves, by
Python negative indexing, to the selector of the last extracted element;
the click then proceeds normally. -/
theorem C10_zero_index_resolves_to_last :
    (∀ (elems : List Element) (h : elems ≠ []),
        WebExecutor.resolve_selector elems (some "[0]")
          = some ((elems.getLast h).selector)) ∧
    WebExecutor.execute_action pageAB abElems
        { action := some "click", selector := some "[0]" }
      = some (.ok "https://example.com/ab" false) := by
  refine ⟨?_, rfl⟩
  intro elems h
  have hlen : 1 ≤ elems.length := by
    cases elems with
    | nil => exact absurd rfl h
    | cons x xs => exact Nat.succ_le_succ (Nat.zero_le _)
  show some (WebExecutor.resolve_selector_str elems "[0]") = _
  unfold WebExecutor.resolve_selector_str
  have hcond : (pyStartsWith "[0]" "[" && pyEndsWith "[0]" "]") = true := by decide
  rw [hcond]
  have hparse : pyIntChars? (innerChars "[0]") = some 0 := by decide
  simp only [if_pos rfl, hparse]
  have hle : (0 : Int) ≤ (elems.length : Int) := by omega
  rw [if_pos hle]
  have hidx : pyIndex elems ((0 : Int) - 1) = some (elems.getLast h) := by
    unfold pyIndex
    have hneg : ((0 : Int) - 1) < 0 := by norm_num
    rw [if_pos hneg]
    have hj : (elems.length : Int) + ((0 : Int) - 1) = ((elems.length - 1 : Nat) : Int) := by
      omega
    rw [hj]
    have hjpos : ¬ (((elems.length - 1 : Nat) : Int) < 0) := by omega
    rw [if_neg hjpos]
    simp only [Int.toNat_natCast]
    have hlt : elems.length - 1 < elems.length := by omega
    rw [List.getElem?_eq_getElem hlt]
    rw [List.getLast_eq_getElem]
  rw [hidx]
  simp

/-- Witness for C10 at a concrete input: `[0]` on the two-element table
resolves to `#b`, the last element's selector. -/
theorem C10_witness :
    WebExecutor.resolve_selector abElems (some "[0]") = some "#b" := by
  have h := C10_zero_index_resolves_to_last.1 abElems (by decide)
  exact h

/-! ## Python dict/JSON operations used by the planner -/

/-- Substring test on character lists (`needle in hay` for Python strings). -/
def strContains (needle : List Char) : List Char → Bool
  | [] => needle.isEmpty
  | c :: rest => needle.isPrefixOf (c :: rest) || strContains needle rest

namespace JVal

/-- Association-list lookup (JSON objects from `json.loads` have unique
keys, later duplicates having overwritten earlier ones). -/
def alookup : List (String × JVal) → String → Option JVal
  | [], _ => none
  | (k, x) :: rest, key => if k = key then some x else alookup rest key

/-- `v.get(key, default)`: a dict method — AttributeError on any other
value (list, string, number, …). -/
def dictGetD (v : JVal) (key : String) (default : JVal) : Except PyErr JVal :=
  match v with
  | .obj kvs =>
    .ok (match alookup kvs key with
      | some x => x
      | none => default)
  | _ => .error (.attributeError ("object has no attribute get: " ++ key))

/-- `v.get(key)` with Python's `None` default (modelled `none`). -/
def dictGet? (v : JVal) (key : String) : Except PyErr (Option JVal) :=
  match v with
  | .obj kvs => .ok (alookup kvs key)
  | _ => .error (.attributeError ("object has no attribute get: " ++ key))

/-- Python `key in v`: dict-key test on dicts, membership on lists,
substring test on strings, TypeError elsewhere. -/
def pyIn (key : String) (v : JVal) : Except PyErr Bool :=
  match v with
  | .obj kvs => .ok (kvs.any (fun kv => kv.1 == key))
  | .arr xs =>
    .ok (xs.any (fun x =>
      match x with
      | .str s => s == key
      | _ => false))
  | .str s => .ok (strContains key.data s.data)
  | _ => .error (.typeError "argument is not iterable")

/-- `v[key]` subscription by a string key. -/
def pyGetItem (v : JVal) (key : String) : Except PyErr JVal :=
  match v with
  | .obj kvs =>
    match alookup kvs key with
    | some x => .ok x
    | none => .error (.valueError ("KeyError: " ++ key))
  | .str _ => .error (.typeError "string indices must be integers")
  | .arr _ => .error (.typeError "list indices must be integers")
  | _ => .error (.typeError "object is not subscriptable")

end JVal

/-- Python `int(x)` on a fetched-by-`get` value (`none` is Python `None`):
TypeError for None/null/containers, ValueError for a non-numeric string,
truncation questions do not arise (this protocol's indices are integers). -/
def pyIntOf : Option JVal → Except PyErr Int
  | none => .error (.typeError "int() argument must not be NoneType")
  | some (.num n) => .ok n
  | some (.bool b) => .ok (if b then 1 else 0)
  | some (.str s) =>
    match pyInt? s with
    | some n => .ok n
    | none => .error (.valueError "invalid literal for int()")
  | some .null => .error (.typeError "int() argument must not be NoneType")
  | some (.arr _) => .error (.typeError "int() argument must not be a list")
  | some (.obj _) => .error (.typeError "int() argument must not be a dict")

/-! ## `src/planner.py` — `LLMPlanner` -/

namespace LLMPlanner

/-- `LLMPlanner._parse_json` (lines 197-216).  Its input here is the result
of `json.loads` on the (markdown-stripped) oracle response: `none` models a
`json.JSONDecodeError`, in which case the method returns its safe fallback
dict `{"action": "stop", "description": "Failed to parse action"}`. -/
def parse_json (response : Option JVal) : JVal :=
  match response with
  | some v => v
  | none => .obj [("action", .str "stop"), ("description", .str "Failed to parse action")]

/-- Lines 133-142: assemble the executor-format action dict.  The narrative
fields are `parsed.get(..., '')`; `parsed` is a dict whenever this point is
reached (a non-dict would have raised at `parsed.get('action', [])`). -/
def build_action (action_type : String) (selector : Option String) (text : JVal)
    (parsed : JVal) (step_number : Nat) : Except PyErr Action := do
  let thinking ← parsed.dictGetD "thinking" (.str "")
  let memory ← parsed.dictGetD "memory" (.str "")
  let next_goal ← parsed.dictGetD "next_goal" (.str "")
  pure { action := some action_type, selector := selector, text := text,
         thinking := thinking, memory := memory, next_goal := next_goal,
         capture := some "both", step_number := step_number }

/-- The flat-format salvage block of `decide_next_action` (lines 89-102):
run when `parsed['action']` is not a list. -/
def salvage_flat (parsed : JVal) : Except PyErr (List JVal) := do
  let hasAction ← JVal.pyIn "action" parsed
  if hasAction then do
    let av ← parsed.pyGetItem "action"
    match av with
    | .str flat_action =>
      if flat_action = "click" ∨ flat_action = "click_element" then do
        let hasIdx ← JVal.pyIn "index" parsed
        if hasIdx then do
          let idx ← parsed.pyGetItem "index"
          pure [JVal.obj [("click_element", JVal.obj [("index", idx)])]]
        else pure []
      else if flat_action = "input" ∨ flat_action = "input_text" then do
        let hasIdx ← JVal.pyIn "index" parsed
        if hasIdx then do
          let idx ← parsed.pyGetItem "index"
          let txt ← parsed.dictGetD "text" (.str "")
          pure [JVal.obj [("input_text", JVal.obj [("index", idx), ("text", txt)])]]
        else pure []
      else pure []
    | _ => pure []
  else pure []

/-- `LLMPlanner.decide_next_action` (lines 50-144), from the point where the
oracle's response text has been received: parse it (`_parse_json`), pull out
the action list (salvaging a flat format), normalise the first entry into
the executor's action dict; unknown or missing actions become `wait`.
Prompt construction and the oracle call itself (`_call_llm`) are the
excluded oracle surface; `step_number` is the only loop input recorded in
the result. -/
def decide_next_action (response : Option JVal) (step_number : Nat) :
    Except PyErr Action := do
  let parsed := parse_json response
  let action_list0 ← parsed.dictGetD "action" (.arr [])
  let action_list ←
    match action_list0 with
    | .arr xs => pure xs
    | _ => salvage_flat parsed
  match action_list with
  | [] => build_action "wait" none (.str "") parsed step_number
  | action_obj :: _ => do
    let hasClick ← JVal.pyIn "click_element" action_obj
    if hasClick then do
      let ce ← action_obj.pyGetItem "click_element"
      let idxOpt ← ce.dictGet? "index"
      let i ← pyIntOf idxOpt
      build_action "click" (some ("[" ++ toString i ++ "]")) (.str "") parsed step_number
    else do
      let hasInput ← JVal.pyIn "input_text" action_obj
      if hasInput then do
        let it ← action_obj.pyGetItem "input_text"
        let idxOpt ← it.dictGet? "index"
        let txt ← it.dictGetD "text" (.str "")
        let i ← pyIntOf idxOpt
        build_action "type" (some ("[" ++ toString i ++ "]")) txt parsed step_number
      else do
        let hasDone ← JVal.pyIn "done" action_obj
        if hasDone then build_action "stop" none (.str "") parsed step_number
        else build_action "wait" none (.str "") parsed step_number

end LLMPlanner

/-! ### Claim C9 -/

/-- C9 counterexample: a syntactically valid response whose first action
entry is a `click_element` without an `index` key makes
`decide_next_action` raise (`int(None)` is a TypeError at
`selector = f'[{int(index)}]'`) instead of returning the claimed `wait`
fallback — so `decide_next_action` does not return a fallback action for
every malformed-shape oracle response. -/
theorem C9_counterexample :
    LLMPlanner.decide_next_action
        (some (JVal.obj [("action", JVal.arr [JVal.obj [("click_element", JVal.obj [])]])])) 1
      = .error (.typeError "int() argument must not be NoneType") := by
  rfl

/-- C9 as amended: the fallback-to-`wait` guarantee holds for the shapes the
code actually guards — a JSON-decode failure (via `_parse_json`'s safe
fallback dict), a present-but-empty action list, and a flat non-salvageable
action value — while a first action entry lacking an integer index raises
(see the counterexample). -/
theorem C9_fallback_wait (step_number : Nat) :
    LLMPlanner.decide_next_action none step_number
        = .ok { action := some "wait", selector := none, text := .str "",
                capture := some "both", step_number := step_number } ∧
    LLMPlanner.decide_next_action (some (JVal.obj [("action", JVal.arr [])])) step_number
        = .ok { action := some "wait", selector := none, text := .str "",
                capture := some "both", step_number := step_number } ∧
    LLMPlanner.decide_next_action (some (JVal.obj [("action", JVal.str "scroll")]))
          step_number
        = .ok { action := some "wait", selector := none, text := .str "",
                capture := some "both", step_number := step_number } := by
  refine ⟨rfl, rfl, rfl⟩

/-! ## `src/storage.py` — `DatasetStorage`

Path and timestamp handling (`_sanitize`, `datetime.now`, directory
creation) are wall-clock/filesystem I/O outside the model; what the claims
need is the content of the persisted `metadata.json` and the screenshot
count. -/

/-- `parse_instruction`'s structured result. -/
structure TaskInfo where
  app_name : String
  url : String
  task : String
deriving DecidableEq

/-- One entry of the `screenshots` list inside `metadata.json`
(`save_screenshot` lines 53-68; the `action`/`selector` keys are added only
when an action dict is passed). -/
structure ShotMeta where
  name : String
  description : JVal
  url : String
  action : Option (Option String) := none
  selector : Option (Option String) := none

/-- Mutable state of a `DatasetStorage` instance. -/
structure DatasetStorage where
  screenshots : List ShotMeta := []
  screenshot_count : Nat := 0

/-- The final `metadata.json` contents (`save_metadata` lines 73-100;
timestamps omitted).  Note the `action_history` argument of
`save_metadata` never reaches this record — the source accepts and drops
it. -/
structure Metadata where
  instruction : String
  task_info : TaskInfo
  total_screenshots : Nat
  status : String
  error : Option String := none
  screenshots : List ShotMeta

namespace DatasetStorage

/-- `DatasetStorage.save_screenshot` (lines 37-71): record the screenshot
metadata and bump the count. -/
def save_screenshot (st : DatasetStorage) (name : String) (description : JVal)
    (url : String) (action : Option Action) : DatasetStorage :=
  { screenshots := st.screenshots ++
      [{ name := name, description := description, url := url,
         action := match action with | some a => some a.action | none => none,
         selector := match action with | some a => some a.selector | none => none }],
    screenshot_count := st.screenshot_count + 1 }

/-- `DatasetStorage.save_metadata` (lines 73-100): write `metadata.json`.
The `action_history` parameter is accepted but, exactly as in the source,
never stored. -/
def save_metadata (st : DatasetStorage) (instruction : String) (task_info : TaskInfo)
    (action_history : List Action) (error : Option String := none) : Metadata :=
  { instruction := instruction
    task_info := task_info
    total_screenshots := st.screenshot_count
    status := match error with | some _ => "failed" | none => "completed"
    error := error
    screenshots := st.screenshots }

end DatasetStorage

/-! ## `src/agent_b.py` — `WebAgent.execute_task`

The planner, executor, page and oracle are the loop's environment: the
loop only observes the action dict the planner hands back for a given
(step, optional screenshot, history) and the result dict (or Python `None`,
per the C1 model) the executor hands back for an action.  `screenshot n` is
the result of the (n+1)-th `get_screenshot()` call of the session, and
`current_url s` the URL read at step `s`. -/

structure AgentEnv where
  task_info : TaskInfo
  decide : Nat → Option Bytes → List Action → Action
  exec : Action → Option WebExecutor.ExecResult
  screenshot : Nat → Bytes
  current_url : Nat → String
  phash : Bytes → FP

/-- Python truthiness of `screenshot_for_llm` (`None` and `b""` are falsy). -/
def truthyBytes : Option Bytes → Bool
  | none => false
  | some b => !b.isEmpty

/-- Truthiness of a JSON value, for `a or b` chains on narrative fields. -/
def jvalTruthy : JVal → Bool
  | .null => false
  | .bool b => b
  | .num n => n != 0
  | .str s => !s.data.isEmpty
  | .arr xs => !xs.isEmpty
  | .obj kvs => !kvs.isEmpty

/-- `action.get("next_goal") or action.get("description") or
action.get("thinking", "")[:50]` (line 123): the planner never sets a
`description` key, and its narrative fields are strings in every reachable
case; a non-string value is kept as-is (it only decorates the screenshot
metadata). -/
def descOf (a : Action) : JVal :=
  if jvalTruthy a.next_goal then a.next_goal
  else
    match a.thinking with
    | .str s => .str (String.mk (s.data.take 50))
    | v => v

/-- Two-digit step prefix of a screenshot name (`f"{step:02d}_..."`). -/
def pad2 (n : Nat) : String :=
  if n < 10 then "0" ++ toString n else toString n

/-- Loop state of `execute_task`'s while loop: the Python locals `step`,
`action_history`, `use_vision_for_step`, the executor-side screenshot call
counter, plus the state of the two stateful collaborators owned by the
session (detector, storage). -/
structure LoopState where
  step : Nat
  shots : Nat
  history : List Action
  use_vision : Bool
  detector : StateDetector
  storage : DatasetStorage

/-- How the while loop ended. -/
inductive LoopEnd where
  | stopped
  | budget
deriving DecidableEq

/-- An exception escaping the loop body (which `execute_task` does not
catch), or exhaustion of the model's iteration fuel. -/
inductive LoopErr where
  | attributeError
  | keyError
  | outOfFuel
deriving DecidableEq

/-- `max_steps = 10  # Safety limit` (line 45). -/
def max_steps : Nat := 10

namespace WebAgent

/-- Outcome of one iteration of the while loop: terminate (normally or by
an escaping exception), or continue with the next iteration's state. -/
inductive IterOut where
  | halt (r : Except LoopErr (LoopEnd × LoopState))
  | again (st2 : LoopState)

/-- The state the loop carries into the next iteration after recording a
step (lines 114-125): the action appended to history, the vision flag
cleared, and — when the action's capture mode asks for it — a screenshot
taken, classified by the detector, and persisted only if novel. -/
def recorded_state (env : AgentEnv) (st : LoopState) (step shots1 : Nat)
    (a : Action) : LoopState :=
  let hist := st.history ++ [a]
  if a.capture == some "post" || a.capture == some "both" then
    let ss := env.screenshot shots1
    let r := st.detector.is_new_state env.phash ss false
    let storage1 :=
      if r.1 then
        st.storage.save_screenshot (pad2 step ++ "_after_" ++ pyStrOfOpt a.action)
          (descOf a) (env.current_url step) (some a)
      else st.storage
    ⟨step, shots1 + 1, hist, false, r.2, storage1⟩
  else
    ⟨step, shots1, hist, false, st.detector, st.storage⟩

/-- The recorded-step state keeps the given step number, appends exactly the
recorded action to history, and clears the vision flag. -/
theorem recorded_state_fields (env : AgentEnv) (st : LoopState) (step shots1 : Nat)
    (a : Action) :
    (recorded_state env st step shots1 a).step = step ∧
    (recorded_state env st step shots1 a).history = st.history ++ [a] ∧
    (recorded_state env st step shots1 a).use_vision = false := by
  unfold recorded_state
  by_cases hcap : (a.capture == some "post" || a.capture == some "both") = true
  · simp [hcap]
  · simp only [Bool.not_eq_true] at hcap
    simp [hcap]

/-- One iteration of the while loop of `WebAgent.execute_task`
(lines 49-125).

Per iteration: check `step < max_steps`; increment `step`; extract the DOM
(an environment read with no effect on control flow); attach a screenshot
when `step == 1` or the previous iteration set `use_vision_for_step`; reset
that flag; ask the planner; `break` on a `stop` action; execute; if the
result is Python `None`, `result.get("success")` raises AttributeError; if
the result is a failure and no (truthy) screenshot was attached, decrement
`step` and retry with vision; otherwise append to history and, when the
action's capture mode asks for it, take a screenshot, classify it, and
persist it only if novel. -/
def loop_body (env : AgentEnv) (st : LoopState) : IterOut :=
  if st.step < max_steps then
    let step := st.step + 1
    let wantVision := step == 1 || st.use_vision
    let scr : Option Bytes := if wantVision then some (env.screenshot st.shots) else none
    let shots1 := if wantVision then st.shots + 1 else st.shots
    let action := env.decide step scr st.history
    if action.action == some "stop" then
      .halt (.ok (.stopped, { st with step := step, shots := shots1 }))
    else
      match action.action with
      | none => .halt (.error .keyError)
      | some _ =>
        match env.exec action with
        | none => .halt (.error .attributeError)
        | some result =>
          if !result.success && !truthyBytes scr then
            .again { st with step := step - 1, shots := shots1, use_vision := true }
          else
            .again (recorded_state env st step shots1 action)
  else
    .halt (.ok (.budget, st))

/-- The while loop itself: iterate `loop_body` (the fuel bounds the number
of iterations of the model; the Python loop has no such bound and can in
principle spin — see C3 for the conditions under which it cannot). -/
def loop (env : AgentEnv) : Nat → LoopState → Except LoopErr (LoopEnd × LoopState)
  | 0, _ => .error .outOfFuel
  | fuel + 1, st =>
    match loop_body env st with
    | .halt r => r
    | .again st2 => loop env fuel st2

theorem loop_succ (env : AgentEnv) (fuel : Nat) (st : LoopState) :
    loop env (fuel + 1) st =
      match loop_body env st with
      | .halt r => r
      | .again st2 => loop env fuel st2 := rfl

/-- The value `execute_task` returns, together with the session artefacts
the claims inspect (final metadata, history, storage). -/
structure AgentResult where
  outcome : LoopEnd
  history : List Action
  storage : DatasetStorage
  metadata : Metadata
  success : Bool
  screenshots : Nat

/-- Step 5 of `execute_task` (lines 127-134): `save_metadata` and the
return dict. -/
def finish (instruction : String) (task_info : TaskInfo) (p : LoopEnd × LoopState) :
    AgentResult :=
  { outcome := p.1
    history := p.2.history
    storage := p.2.storage
    metadata := p.2.storage.save_metadata instruction task_info p.2.history none
    success := true
    screenshots := p.2.storage.screenshot_count }

/-- `WebAgent.execute_task` (lines 18-134): reset the detector, parse the
instruction (oracle surface: `env.task_info`), navigate, take and always
persist the forced initial screenshot, run the loop, then save metadata.
There is no exception handling: an error raised inside the loop propagates
(`Except.error`) and `save_metadata` is never reached. -/
def execute_task (env : AgentEnv) (fuel : Nat) (d0 : StateDetector)
    (instruction : String) : Except LoopErr AgentResult :=
  let detector := d0.reset
  let task_info := env.task_info
  let shot0 := env.screenshot 0
  let r0 := detector.is_new_state env.phash shot0 true
  let storage1 : DatasetStorage :=
    if r0.1 then
      DatasetStorage.save_screenshot {} "00_initial" (.str "Initial page load")
        task_info.url (some { action := some "navigate" })
    else {}
  (loop env fuel
      { step := 0, shots := 1, history := [], use_vision := false,
        detector := r0.2, storage := storage1 }).map
    (finish instruction task_info)

end WebAgent

/-! ### Claims C2 and C3 -/

theorem except_map_eq_ok {ε α β : Type} (f : α → β) (e : Except ε α) (b : β)
    (h : e.map f = Except.ok b) : ∃ a, e = Except.ok a ∧ b = f a := by
  cases e with
  | error x => simp [Except.map] at h
  | ok a =>
    simp [Except.map] at h
    exact ⟨a, rfl, h.symm⟩

/-- Environment for the C2 counterexample: the planner always asks for a
click on `#missing`; the executor is the real `execute_action` model on the
`pageAB` page, which returns Python `None` for that action (the C1 bug). -/
def envCrash : AgentEnv :=
  { task_info := { app_name := "App", url := "https://example.com", task := "do" }
    decide := fun _ _ _ => { action := some "click", selector := some "#missing" }
    exec := fun a => WebExecutor.execute_action pageAB [] a
    screenshot := fun _ => [1]
    current_url := fun _ => "https://example.com"
    phash := fun _ => [] }

/-- C2 counterexample: a handler exception at step 1 (the executor hands
back Python `None`, so `result.get("success")` raises AttributeError)
terminates the session as an uncaught exception — `save_metadata` is never
reached and no `metadata.json` is written, refuting "whichever terminal
state the loop reaches, the session ends by writing metadata.json". -/
theorem C2_counterexample :
    WebAgent.execute_task envCrash 12 (StateDetector.init 5) "add a task"
      = .error .attributeError := by
  rfl

/-- C2 as amended: when the loop does terminate normally (`stop` declared or
the step budget exhausted), `execute_task` writes metadata carrying the
instruction, the parsed task info, the screenshot count and records, status
`"completed"` and no error — but (matching `save_metadata`, which drops its
`action_history` argument) the action history is not part of the persisted
metadata, and an exception during a step writes nothing at all. -/
theorem C2_metadata_on_normal_end (env : AgentEnv) (fuel : Nat) (d0 : StateDetector)
    (instruction : String) (res : WebAgent.AgentResult)
    (h : WebAgent.execute_task env fuel d0 instruction = .ok res) :
    res.metadata.instruction = instruction ∧
    res.metadata.task_info = env.task_info ∧
    res.metadata.status = "completed" ∧
    res.metadata.error = none ∧
    res.metadata.total_screenshots = res.storage.screenshot_count ∧
    res.metadata.screenshots = res.storage.screenshots ∧
    res.success = true := by
  simp only [WebAgent.execute_task] at h
  obtain ⟨p, hp, hres⟩ := except_map_eq_ok _ _ _ h
  subst hres
  exact ⟨rfl, rfl, rfl, rfl, rfl, rfl, rfl⟩

/-- Environment for the C2 witness: the planner immediately declares
`stop`. -/
def envStop : AgentEnv :=
  { task_info := { app_name := "App", url := "https://example.com", task := "do" }
    decide := fun _ _ _ => { action := some "stop" }
    exec := fun _ => some (.ok "https://example.com" false)
    screenshot := fun _ => [1]
    current_url := fun _ => "https://example.com"
    phash := fun _ => [] }

/-- The session value computed for the C2 witness run. -/
def resStop : WebAgent.AgentResult :=
  WebAgent.finish "ins" envStop.task_info
    (.stopped,
      { step := 1, shots := 2, history := [], use_vision := false,
        detector := ⟨5, []⟩,
        storage := DatasetStorage.save_screenshot {} "00_initial"
          (.str "Initial page load") "https://example.com"
          (some { action := some "navigate" }) })

/-- Witness for C2's amended theorem at a concrete run: a session that stops
at step 1 ends with metadata carrying the instruction, status `"completed"`
and the screenshot count. -/
theorem C2_witness :
    WebAgent.execute_task envStop 5 (StateDetector.init 5) "ins" = .ok resStop ∧
    resStop.metadata.instruction = "ins" ∧
    resStop.metadata.status = "completed" ∧
    resStop.metadata.total_screenshots = 1 := by
  have hok : WebAgent.execute_task envStop 5 (StateDetector.init 5) "ins"
      = .ok resStop := rfl
  have h := C2_metadata_on_normal_end envStop 5 (StateDetector.init 5) "ins" resStop hok
  exact ⟨hok, h.1, h.2.2.1, rfl⟩

/-- C3: if the executor reports failure (`success: False`) for a step on
which no screenshot was attached, the loop re-invokes the planner for the
same step number, now with a screenshot attached, and this escalation
happens at most once per step: whatever the second (vision) attempt's
result is, that attempt's action is appended to history as the step's
record and the loop moves on with the step counter advanced by exactly
one — the step counts once toward the 10-step ceiling, not twice, and the
vision flag is cleared so the loop does not keep retrying the step (given
that screenshots are non-empty byte strings). -/
theorem C3_vision_escalation (env : AgentEnv) (fuel s shots : Nat)
    (hist : List Action) (det : StateDetector) (stor : DatasetStorage)
    (hs1 : 1 ≤ s) (hs2 : s < max_steps)
    (t0 : String) (ht0a : (env.decide (s + 1) none hist).action = some t0)
    (ht0 : t0 ≠ "stop")
    (r0 : WebExecutor.ExecResult)
    (hx0 : env.exec (env.decide (s + 1) none hist) = some r0)
    (hr0 : r0.success = false)
    (hss : env.screenshot shots ≠ [])
    (t1 : String)
    (ht1a : (env.decide (s + 1) (some (env.screenshot shots)) hist).action = some t1)
    (ht1 : t1 ≠ "stop")
    (r1 : WebExecutor.ExecResult)
    (hx1 : env.exec (env.decide (s + 1) (some (env.screenshot shots)) hist) = some r1) :
    WebAgent.loop env (fuel + 2) ⟨s, shots, hist, false, det, stor⟩
        = WebAgent.loop env fuel
            (WebAgent.recorded_state env ⟨s, shots, hist, true, det, stor⟩ (s + 1)
              (shots + 1) (env.decide (s + 1) (some (env.screenshot shots)) hist)) ∧
    (WebAgent.recorded_state env ⟨s, shots, hist, true, det, stor⟩ (s + 1) (shots + 1)
        (env.decide (s + 1) (some (env.screenshot shots)) hist)).step = s + 1 ∧
    (WebAgent.recorded_state env ⟨s, shots, hist, true, det, stor⟩ (s + 1) (shots + 1)
        (env.decide (s + 1) (some (env.screenshot shots)) hist)).history
      = hist ++ [env.decide (s + 1) (some (env.screenshot shots)) hist] ∧
    (WebAgent.recorded_state env ⟨s, shots, hist, true, det, stor⟩ (s + 1) (shots + 1)
        (env.decide (s + 1) (some (env.screenshot shots)) hist)).use_vision = false := by
  obtain ⟨n, rfl⟩ : ∃ n, s = n + 1 := ⟨s - 1, by omega⟩
  have hbeq1 : (n + 1 + 1 == 1) = false := rfl
  have hstop0 : ((env.decide (n + 1 + 1) none hist).action == some "stop") = false := by
    rw [ht0a]
    simp [ht0]
  have hstop1 : ((env.decide (n + 1 + 1) (some (env.screenshot shots)) hist).action
      == some "stop") = false := by
    rw [ht1a]
    simp [ht1]
  have hempty : (env.screenshot shots).isEmpty = false := by
    cases hc : env.screenshot shots with
    | nil => exact absurd hc hss
    | cons x xs => rfl
  -- First iteration: blind failure switches the vision flag on and re-enters
  -- the same step number (the step counter is decremented back to `n + 1`).
  have hb1 : WebAgent.loop_body env ⟨n + 1, shots, hist, false, det, stor⟩
      = .again ⟨n + 1, shots, hist, true, det, stor⟩ := by
    unfold WebAgent.loop_body
    rw [if_pos hs2]
    simp [hbeq1, hstop0, ht0a, ht0, hx0, hr0, truthyBytes]
  -- Second iteration: the planner is re-invoked for the same step number
  -- with a screenshot attached; whatever the result, the action is recorded
  -- and the loop proceeds from the recorded state.
  have hb2 : WebAgent.loop_body env ⟨n + 1, shots, hist, true, det, stor⟩
      = .again (WebAgent.recorded_state env ⟨n + 1, shots, hist, true, det, stor⟩
          (n + 1 + 1) (shots + 1)
          (env.decide (n + 1 + 1) (some (env.screenshot shots)) hist)) := by
    unfold WebAgent.loop_body
    rw [if_pos hs2]
    simp [hstop1, ht1a, ht1, hx1, hempty, truthyBytes]
  have hfields := WebAgent.recorded_state_fields env
    ⟨n + 1, shots, hist, true, det, stor⟩ (n + 1 + 1) (shots + 1)
    (env.decide (n + 1 + 1) (some (env.screenshot shots)) hist)
  refine ⟨?_, hfields.1, hfields.2.1, hfields.2.2⟩
  show WebAgent.loop env ((fuel + 1) + 1) _ = _
  rw [WebAgent.loop_succ, hb1]
  show WebAgent.loop env (fuel + 1) _ = _
  rw [WebAgent.loop_succ, hb2]

/-- Environment for the C3 witness: in blind mode the planner targets
`#bad`, whose execution fails; with vision it targets `#good`, whose
execution succeeds. -/
def envRetry : AgentEnv :=
  { task_info := { app_name := "App", url := "https://example.com", task := "do" }
    decide := fun _ scr _ =>
      match scr with
      | none => { action := some "click", selector := some "#bad" }
      | some _ => { action := some "click", selector := some "#good",
                    capture := some "both" }
    exec := fun a =>
      if a.selector == some "#bad" then some (.err "element not found")
      else some (.ok "https://example.com" false)
    screenshot := fun _ => [7]
    current_url := fun _ => "https://example.com"
    phash := fun _ => [true] }

/-- Witness for C3 at a concrete scripted run: step 2 fails blind, is
re-decided with a screenshot attached, and the loop proceeds from step 2
with the vision-decided action recorded once. -/
theorem C3_witness :
    WebAgent.loop envRetry 20 ⟨1, 0, [], false, ⟨5, []⟩, {}⟩
        = WebAgent.loop envRetry 18
            (WebAgent.recorded_state envRetry ⟨1, 0, [], true, ⟨5, []⟩, {}⟩ 2 1
              (envRetry.decide 2 (some (envRetry.screenshot 0)) [])) ∧
    (WebAgent.recorded_state envRetry ⟨1, 0, [], true, ⟨5, []⟩, {}⟩ 2 1
        (envRetry.decide 2 (some (envRetry.screenshot 0)) [])).step = 2 ∧
    (WebAgent.recorded_state envRetry ⟨1, 0, [], true, ⟨5, []⟩, {}⟩ 2 1
        (envRetry.decide 2 (some (envRetry.screenshot 0)) [])).history
      = [envRetry.decide 2 (some (envRetry.screenshot 0)) []] := by
  have h := C3_vision_escalation envRetry 18 1 0 [] ⟨5, []⟩ {}
    (by decide) (by decide)
    "click" rfl (by decide)
    (.err "element not found") rfl rfl
    (by decide)
    "click" rfl (by decide)
    (.ok "https://example.com" false) rfl
  exact ⟨h.1, h.2.1, h.2.2.1⟩

end WebAgentSpec
